import Mathlib

/-!
Verification of the process-execution helper layer of obox-mcp
(`obox_mcp/utils.py`): `run_command`, `run_command_output` and
`find_project_root`, in a shallow embedding.

The operating system is abstracted as an environment value: spawning either
raises (modelled as `Except.error`, since in the source the spawn happens
outside the try/except and any exception there propagates) or yields a child
process whose behaviour is a `ProcBehavior`.  The child's full stdout/stderr
line lists are a function of the text written to its stdin (the source writes
`input_data` and closes the pipe, so the stdin content is exactly
`input_data`).  A possible exception during communication (writing input,
draining, waiting) carries the partial line buffers captured at that moment;
the timeout case carries the partial buffers captured when the timeout
elapsed.  Decoded stream lines are modelled as `List String` whose
concatenation (`String.join`) is the stream text; Python's `.strip()` is
modelled by `pyStrip` on the character list.
-/

/-- A command is either a shell-interpretable string or an argument vector,
mirroring the `str | list[str]` union in the source. -/
inductive Command where
  | shell (line : String)
  | argv (tokens : List String)
deriving DecidableEq, Repr

/-- `cmd_str = command if isinstance(command, str) else " ".join(command)`
from `run_command_output`. -/
def cmd_to_str : Command → String
  | .shell s => s
  | .argv l => String.intercalate " " l

/-- Behaviour of a successfully spawned child process, as observed by
`run_command`'s collectors.  `child i` is the (stdout lines, stderr lines,
exit code) produced when the text `i` was written to the child's stdin
(`none` when no stdin pipe was opened).  `commError` is `some (msg, o, e)`
when an exception with text `msg` is raised inside the try block while the
captured line buffers hold `o` and `e`.  `exitsInTime` says whether the
child exits before a (truthy) timeout elapses; `soFarStdout`/`soFarStderr`
are the line buffers captured when the timeout elapses. -/
structure ProcBehavior where
  child : Option String → List String × List String × Int
  commError : Option (String × List String × List String)
  exitsInTime : Bool
  soFarStdout : List String
  soFarStderr : List String

/-- Outcome of the spawn itself.  In the source the two
`create_subprocess_*` calls are outside the try/except, so an exception
raised there (e.g. `FileNotFoundError` for a non-existent executable in
vector mode) propagates out of `run_command`; `raises msg` models that. -/
inductive SpawnOutcome where
  | raises (msg : String)
  | ok (b : ProcBehavior)

/-- Python's `str.strip()`: drop leading and trailing whitespace,
modelled structurally on the character list so it evaluates by kernel
reduction. -/
def pyStrip (s : String) : String :=
  String.mk
    (((s.data.dropWhile Char.isWhitespace).reverse.dropWhile
        Char.isWhitespace).reverse)

/-- Python truthiness of the `timeout` argument, as tested by
`if timeout:` in the source: `None`, `0` and `0.0` are falsy. -/
def timeoutTruthy : Option ℚ → Bool
  | none => false
  | some t => decide (t ≠ 0)

/-- `run_command(command, input_data, cwd, timeout)` from
`obox_mcp/utils.py`.  Returns `Except.error msg` when the spawn raises
(that exception propagates to the caller), otherwise `Except.ok` of the
`(returncode, stdout, stderr)` triple.  The `cwd` argument is only passed
through to the spawn and does not affect the returned value, so it is
absorbed into the environment.  Paths mirror the source: an exception
inside the try block returns `(-1, partial stdout unstripped, exception
text ++ newline ++ partial stderr unstripped)`; a truthy timeout with the
child still running returns `(None, stripped partial stdout ++
"\n(Still running...)", stripped partial stderr)`; normal completion
returns `(returncode, stripped stdout, stripped stderr)`. -/
def run_command (command : Command) (input_data : Option String)
    (timeout : Option ℚ) (env : SpawnOutcome) :
    Except String (Option Int × String × String) :=
  match env with
  | .raises msg => .error msg
  | .ok b =>
    match b.commError with
    | some (msg, pOut, pErr) =>
        .ok (some (-1), String.join pOut, msg ++ "\n" ++ String.join pErr)
    | none =>
        if timeoutTruthy timeout then
          if b.exitsInTime then
            let r := b.child input_data
            .ok (some r.2.2, pyStrip (String.join r.1), pyStrip (String.join r.2.1))
          else
            .ok (none, pyStrip (String.join b.soFarStdout) ++ "\n(Still running...)",
                 pyStrip (String.join b.soFarStderr))
        else
          let r := b.child input_data
          .ok (some r.2.2, pyStrip (String.join r.1), pyStrip (String.join r.2.1))

/-- `run_command_output(command, input_data, error_prefix, success_codes,
cwd, timeout)` from `obox_mcp/utils.py`: defaults `success_codes` to `[0]`,
calls `run_command` inside a try/except, and classifies the result.  A
`None` exit code (timeout case) returns stdout as-is; an exit code in
`success_codes` returns stdout; otherwise the formatted error string with
`err or out` as message body. -/
def run_command_output (command : Command) (input_data : Option String)
    ( error_prefix : String) (success_codes : Option (List Int))
    (timeout : Option ℚ) (env : SpawnOutcome) : String :=
  let codes := success_codes.getD [0]
  match run_command command input_data timeout env with
  | .error e => error_prefix ++ " " ++ cmd_to_str command ++ ": " ++ e
  | .ok (code, out, err) =>
    match code with
    | none => out
    | some c =>
      if c ∈ codes then out
      else
        let msg := if err = "" then out else err
        error_prefix ++ " " ++ cmd_to_str command ++ ": " ++ msg

/-!
Embedding of `find_project_root`.  An absolute directory path is a
`List String` of components listed deepest-first, so `os.path.dirname`
is `List.tail` and the filesystem root is `[]` (its parent equals
itself, which is where the upward loop breaks).
-/

/-- The upward loop of `find_project_root`: check the current directory
for the marker; if absent move to the parent; stop with `none` once the
root has been checked (parent equals current). -/
def searchUp (fsExists : List String → String → Bool) (filename : String) :
    List String → Option (List String)
  | [] => if fsExists [] filename then some [] else none
  | c :: rest =>
      if fsExists (c :: rest) filename then some (c :: rest)
      else searchUp fsExists filename rest

/-- The argument vector `find_project_root` passes to `fd` in its
downward phase: `["fd", "-H", "-I", "-t", "f", f"^{filename}$",
"--max-depth", "5"]`. -/
def fd_args (filename : String) : List String :=
  ["fd", "-H", "-I", "-t", "f", "^" ++ filename ++ "$", "--max-depth", "5"]

/-- Python's `out.splitlines()[0]` on a non-empty string: the text up to
the first newline. -/
def first_line (s : String) : String := (s.splitOn "\n").headD ""

/-- Environment of one `find_project_root` call: the current working
directory, the `os.path.exists(os.path.join(d, filename))` oracle, whether
`fd` is on the path (`is_command_exists "fd"`), the
`(returncode, stdout, stderr)` result `run_command` yields for a given
argument vector, and `os.path.dirname(os.path.abspath(m))` for a reported
match `m`. -/
structure FsEnv where
  cwd : List String
  entryExists : List String → String → Bool
  fdAvailable : Bool
  fdRun : List String → Option Int × String × String
  matchDir : String → List String

/-- `find_project_root(filename)` from `obox_mcp/utils.py`: the upward
loop from the current working directory, then, if that fails and `fd`
exists, the `fd` invocation; when it returns code 0 and non-empty output,
the directory of the first reported match; otherwise `None`. -/
def find_project_root (env : FsEnv) (filename : String) : Option (List String) :=
  match searchUp env.entryExists filename env.cwd with
  | some d => some d
  | none =>
    if env.fdAvailable then
      let r := env.fdRun (fd_args filename)
      if r.1 = some 0 ∧ r.2.1 ≠ "" then
        some (env.matchDir (first_line r.2.1))
      else none
    else none

/-- A pass-through (echo) child process: it copies its stdin to its
stdout, produces no stderr and exits 0.  `split` is how the collector's
`readline` loop happens to partition the echoed text into lines; any
partition whose concatenation is the text is a faithful collector run. -/
def passThroughChild (split : String → List String) : ProcBehavior where
  child := fun i => (split (i.getD ""), [], 0)
  commError := none
  exitsInTime := true
  soFarStdout := []
  soFarStderr := []

/-!
Concrete environments used to instantiate the theorems below on small
inputs.
-/

/-- A collector partition that delivers the whole stream text as one
line; its concatenation is trivially the text itself. -/
def echoSplitId : String → List String := fun t => [t]

/-- Behaviour of a child like `true`: no output on either stream,
exit code 0. -/
def bTrue : ProcBehavior where
  child := fun _ => ([], [], 0)
  commError := none
  exitsInTime := true
  soFarStdout := []
  soFarStderr := []

/-- Behaviour of a child like `false`: no output on either stream,
exit code 1. -/
def bFalseTool : ProcBehavior where
  child := fun _ => ([], [], 1)
  commError := none
  exitsInTime := true
  soFarStdout := []
  soFarStderr := []

/-- Behaviour of a child that diagnoses on stderr and exits 2. -/
def bDiag : ProcBehavior where
  child := fun _ => (["partial output\n"], ["fatal: bad revision\n"], 2)
  commError := none
  exitsInTime := true
  soFarStdout := []
  soFarStderr := []

/-- Behaviour of a long-running child that has produced two stdout lines
and one stderr line by the time a timeout elapses, and has not exited. -/
def bSleeper : ProcBehavior where
  child := fun _ => (["done\n"], [], 0)
  commError := none
  exitsInTime := false
  soFarStdout := ["starting server\n", "listening on 8080\n"]
  soFarStderr := ["warning: dev mode\n"]

/-- Behaviour where an exception (text "Broken pipe") is raised inside
the try block while the buffers hold one line each. -/
def bBrokenPipe : ProcBehavior where
  child := fun _ => ([], [], 0)
  commError := some ("Broken pipe", ["out-line\n"], ["err-line\n"])
  exitsInTime := true
  soFarStdout := []
  soFarStderr := []

/-- A filesystem where `/a/b` (deepest-first `["b", "a"]`) contains the
marker and nothing else does, with the working directory `/a/b/c`. -/
def fsUpEx : FsEnv where
  cwd := ["c", "b", "a"]
  entryExists := fun d _ => decide (d = ["b", "a"])
  fdAvailable := false
  fdRun := fun _ => (none, "", "")
  matchDir := fun _ => []

/-- A filesystem with no marker anywhere and no `fd` on the path. -/
def fsNoneEx : FsEnv where
  cwd := ["c", "b", "a"]
  entryExists := fun _ _ => false
  fdAvailable := false
  fdRun := fun _ => (none, "", "")
  matchDir := fun _ => []

/-!
Theorems.
-/

/-- When the upward loop answers `some d`, the marker is in `d`, `d` is an
ancestor-or-self of the start directory, and every strictly deeper
ancestor-or-self lacks the marker. -/
theorem searchUp_some_spec (fsExists : List String → String → Bool)
    (filename : String) (p : List String) :
    ∀ d, searchUp fsExists filename p = some d →
      fsExists d filename = true ∧ d <:+ p ∧
      ∀ e, e <:+ p → d.length < e.length → fsExists e filename = false := by
  induction p with
  | nil =>
    intro d h
    by_cases hf : fsExists [] filename = true
    · simp only [searchUp, hf, if_true, Option.some.injEq] at h
      subst h
      refine ⟨hf, List.suffix_rfl, ?_⟩
      intro e he hlen
      have h1 := he.length_le
      simp only [List.length_nil] at h1 hlen
      omega
    · simp only [searchUp, hf, if_false] at h
      simp [Bool.not_eq_true] at hf
      simp [hf] at h
  | cons c rest ih =>
    intro d h
    by_cases hf : fsExists (c :: rest) filename = true
    · simp only [searchUp, hf, if_true, Option.some.injEq] at h
      subst h
      refine ⟨hf, List.suffix_rfl, ?_⟩
      intro e he hlen
      have := he.length_le
      omega
    · have hf' : fsExists (c :: rest) filename = false := by
        simpa [Bool.not_eq_true] using hf
      simp only [searchUp, hf', if_false, Bool.false_eq_true] at h
      obtain ⟨h1, h2, h3⟩ := ih d h
      refine ⟨h1, h2.trans (List.suffix_cons c rest), ?_⟩
      intro e he hlen
      rcases List.suffix_cons_iff.mp he with rfl | he'
      · exact hf'
      · exact h3 e he' hlen

/-- When the upward loop answers `none`, no ancestor-or-self of the start
directory — the filesystem root included — contains the marker. -/
theorem searchUp_none_spec (fsExists : List String → String → Bool)
    (filename : String) (p : List String) :
    searchUp fsExists filename p = none →
      ∀ e, e <:+ p → fsExists e filename = false := by
  induction p with
  | nil =>
    intro h e he
    have he' : e = [] := List.suffix_nil.mp he
    subst he'
    by_cases hf : fsExists [] filename = true
    · simp [searchUp, hf] at h
    · simpa [Bool.not_eq_true] using hf
  | cons c rest ih =>
    intro h e he
    by_cases hf : fsExists (c :: rest) filename = true
    · simp [searchUp, hf] at h
    · have hf' : fsExists (c :: rest) filename = false := by
        simpa [Bool.not_eq_true] using hf
      simp only [searchUp, hf', if_false, Bool.false_eq_true] at h
      rcases List.suffix_cons_iff.mp he with rfl | he'
      · exact hf'
      · exact ih h e he'

/-- C1: `run_command_output` is a total function into plain strings, and
when the underlying `run_command` raises (as it does for an argument
vector naming a non-existent executable, since the spawn sits outside its
try/except), the string returned is
`error_prefix ++ " " ++ command ++ ": " ++ exception text`, which
contains the configured error prefix. -/
theorem run_command_output_spawn_error (command : Command)
    (input_data : Option String) ( error_prefix : String)
    (success_codes : Option (List Int)) (timeout : Option ℚ) (msg : String) :
    run_command_output command input_data error_prefix success_codes timeout
        (.raises msg)
      = error_prefix ++ " " ++ cmd_to_str command ++ ": " ++ msg ∧
    ∃ rest, run_command_output command input_data error_prefix success_codes
        timeout (.raises msg) = error_prefix ++ rest := by
  refine ⟨rfl, " " ++ (cmd_to_str command ++ (": " ++ msg)), ?_⟩
  show error_prefix ++ " " ++ cmd_to_str command ++ ": " ++ msg
      = error_prefix ++ (" " ++ (cmd_to_str command ++ (": " ++ msg)))
  simp [String.append_assoc]

/-- C2 counterexample: an exception raised while spawning the child
process is not caught by `run_command` — the two `create_subprocess_*`
calls sit outside the try/except, so e.g. the `FileNotFoundError` for a
non-existent executable in vector mode propagates to the caller. -/
theorem run_command_spawn_exception_propagates :
    run_command (.argv ["no-such-executable"]) none none
        (.raises "No such file or directory")
      = .error "No such file or directory" := rfl

/-- C2 (amended): any exception raised while communicating with the child
(writing input, draining, waiting) is caught inside `run_command`, which
then returns exit code −1, the partial stdout captured so far, and the
exception text joined by a newline with the partial stderr captured so
far; only spawn-time exceptions propagate. -/
theorem run_command_comm_exception_caught (command : Command)
    (input_data : Option String) (timeout : Option ℚ) (b : ProcBehavior)
    (msg : String) (pOut pErr : List String)
    (h : b.commError = some (msg, pOut, pErr)) :
    run_command command input_data timeout (.ok b)
      = .ok (some (-1), String.join pOut, msg ++ "\n" ++ String.join pErr) := by
  simp [run_command, h]

/-- Witness for C2's amended theorem at the `bBrokenPipe` behaviour. -/
theorem run_command_comm_exception_caught_witness :
    run_command (.argv ["git", "status"]) (some "x") none (.ok bBrokenPipe)
      = .ok (some (-1), String.join ["out-line\n"],
             "Broken pipe" ++ "\n" ++ String.join ["err-line\n"]) :=
  run_command_comm_exception_caught (.argv ["git", "status"]) (some "x") none
    bBrokenPipe "Broken pipe" ["out-line\n"] ["err-line\n"] rfl

/-- C10: a timeout of 0 is falsy under the source's `if timeout:` test, so
`run_command` behaves exactly as with no timeout: it waits unconditionally
and an `Except.ok` result never carries the absent exit code. -/
theorem run_command_timeout_zero (command : Command)
    (input_data : Option String) (env : SpawnOutcome) :
    run_command command input_data (some 0) env
      = run_command command input_data none env ∧
    ∀ r, run_command command input_data (some 0) env = Except.ok r →
      r.1 ≠ none := by
  have h0 : timeoutTruthy (some 0) = false := by simp [timeoutTruthy]
  constructor
  · cases env with
    | raises msg => rfl
    | ok b =>
      cases hce : b.commError with
      | some v => simp [run_command, hce]
      | none => simp [run_command, hce, h0, timeoutTruthy]
  · intro r h
    cases env with
    | raises msg => simp [run_command] at h
    | ok b =>
      cases hce : b.commError with
      | some v =>
        obtain ⟨m, po, pe⟩ := v
        simp [run_command, hce] at h
        simp [← h]
      | none =>
        simp [run_command, hce, h0] at h
        simp [← h]

/-- Witness for C10 at a concrete command and behaviour. -/
theorem run_command_timeout_zero_witness :
    run_command (.shell "sleep 100") none (some 0) (.ok bSleeper)
      = run_command (.shell "sleep 100") none none (.ok bSleeper) :=
  (run_command_timeout_zero (.shell "sleep 100") none (.ok bSleeper)).1

/-- C3: with a (truthy) timeout set and a child that has not exited when
it elapses, `run_command` returns the absent exit code, the stripped
stdout captured so far suffixed with the still-running marker, and the
stripped stderr captured so far (the child is left running: the model has
no kill action and the timeout branch performs none); `run_command_output`
then returns that stdout text as-is. -/
theorem run_command_timeout_still_running (command : Command)
    (input_data : Option String) (t : ℚ) (ht : t ≠ 0) (b : ProcBehavior)
    (hce : b.commError = none) (hex : b.exitsInTime = false)
    ( error_prefix : String) (success_codes : Option (List Int)) :
    run_command command input_data (some t) (.ok b)
      = .ok (none, pyStrip (String.join b.soFarStdout) ++ "\n(Still running...)",
             pyStrip (String.join b.soFarStderr)) ∧
    run_command_output command input_data error_prefix success_codes (some t)
        (.ok b)
      = pyStrip (String.join b.soFarStdout) ++ "\n(Still running...)" := by
  have htt : timeoutTruthy (some t) = true := by simp [timeoutTruthy, ht]
  constructor
  · simp [run_command, hce, htt, hex]
  · simp [run_command_output, run_command, hce, htt, hex]

/-- Witness for C3 at the `bSleeper` behaviour with timeout 5. -/
theorem run_command_timeout_still_running_witness :
    (5 : ℚ) ≠ 0 ∧
    run_command (.shell "npm run dev") none (some 5) (.ok bSleeper)
      = .ok (none,
             pyStrip (String.join ["starting server\n", "listening on 8080\n"])
               ++ "\n(Still running...)",
             pyStrip (String.join ["warning: dev mode\n"])) :=
  ⟨by norm_num,
   (run_command_timeout_still_running (.shell "npm run dev") none 5
      (by norm_num) bSleeper rfl rfl "Error executing" none).1⟩

/-- C4: when the child completes with an exit code belonging to
`success_codes` (defaulting to `[0]` when unspecified),
`run_command_output` returns exactly the trimmed standard-output text. -/
theorem run_command_output_success (command : Command)
    (input_data : Option String) ( error_prefix : String)
    (success_codes : Option (List Int)) (timeout : Option ℚ)
    (b : ProcBehavior) (hce : b.commError = none)
    (hex : timeoutTruthy timeout = true → b.exitsInTime = true)
    (hmem : (b.child input_data).2.2 ∈ success_codes.getD [0]) :
    run_command_output command input_data error_prefix success_codes timeout
        (.ok b)
      = pyStrip (String.join (b.child input_data).1) := by
  cases htt : timeoutTruthy timeout with
  | false => simp [run_command_output, run_command, hce, htt, hmem]
  | true => simp [run_command_output, run_command, hce, htt, hex htt, hmem]

/-- Witness for C4: the command `["true"]` under the default policy
returns the empty string. -/
theorem run_command_output_success_witness :
    (bTrue.child none).2.2 ∈ (none : Option (List Int)).getD [0] ∧
    run_command_output (.argv ["true"]) none "Error executing" none none
        (.ok bTrue)
      = "" := by
  refine ⟨by decide, ?_⟩
  have h := run_command_output_success (.argv ["true"]) none "Error executing"
    none none bTrue rfl (fun h => rfl) (by decide)
  simpa using h

/-- C5: when the child completes with an exit code outside
`success_codes`, `run_command_output` returns the error prefix, a space,
the rendered command, a colon-space, then the trimmed stderr when it is
non-empty and the trimmed stdout otherwise; an argument-vector command is
rendered by joining its tokens with single spaces. -/
theorem run_command_output_failure (command : Command)
    (input_data : Option String) ( error_prefix : String)
    (success_codes : Option (List Int)) (timeout : Option ℚ)
    (b : ProcBehavior) (hce : b.commError = none)
    (hex : timeoutTruthy timeout = true → b.exitsInTime = true)
    (hmem : (b.child input_data).2.2 ∉ success_codes.getD [0]) :
    run_command_output command input_data error_prefix success_codes timeout
        (.ok b)
      = error_prefix ++ " " ++ cmd_to_str command ++ ": "
          ++ (if pyStrip (String.join (b.child input_data).2.1) = ""
              then pyStrip (String.join (b.child input_data).1)
              else pyStrip (String.join (b.child input_data).2.1)) ∧
    ∀ tokens : List String,
      cmd_to_str (.argv tokens) = String.intercalate " " tokens := by
  refine ⟨?_, fun tokens => rfl⟩
  cases htt : timeoutTruthy timeout with
  | false => simp [run_command_output, run_command, hce, htt, hmem]
  | true => simp [run_command_output, run_command, hce, htt, hex htt, hmem]

/-- Witness for C5: the command `["false"]` (exit 1, silent on both
streams) under the default policy yields the formatted error string. -/
theorem run_command_output_failure_witness :
    (bFalseTool.child none).2.2 ∉ ((none : Option (List Int)).getD [0]) ∧
    run_command_output (.argv ["false"]) none "Error executing" none none
        (.ok bFalseTool)
      = "Error executing false: " := by
  refine ⟨by decide, ?_⟩
  have h := (run_command_output_failure (.argv ["false"]) none "Error executing"
    none none bFalseTool rfl (fun h => rfl) (by decide)).1
  rw [h]
  decide

/-- C7: the upward phase returns the nearest enclosing directory holding
the marker — when the loop answers `some d`, `find_project_root` returns
`d`, the marker exists in `d`, `d` is an ancestor-or-self of the working
directory, and no strictly nearer (deeper) ancestor-or-self holds the
marker; when it answers `none`, no ancestor-or-self holds the marker, the
filesystem root included (the root itself is checked before the loop
breaks on parent = current). -/
theorem find_project_root_upward (env : FsEnv) (filename : String) :
    (∀ d, searchUp env.entryExists filename env.cwd = some d →
        find_project_root env filename = some d ∧
        env.entryExists d filename = true ∧ d <:+ env.cwd ∧
        ∀ e, e <:+ env.cwd → d.length < e.length →
          env.entryExists e filename = false) ∧
    (searchUp env.entryExists filename env.cwd = none →
        ∀ e, e <:+ env.cwd → env.entryExists e filename = false) := by
  constructor
  · intro d h
    have hs := searchUp_some_spec env.entryExists filename env.cwd d h
    exact ⟨by simp [find_project_root, h], hs.1, hs.2.1, hs.2.2⟩
  · intro h
    exact searchUp_none_spec env.entryExists filename env.cwd h

/-- Witness for C7 on the `fsUpEx` filesystem: from `/a/b/c`, the marker
placed in `/a/b` is found in the nearest enclosing directory. -/
theorem find_project_root_upward_witness :
    find_project_root fsUpEx "marker.txt" = some ["b", "a"] ∧
    fsUpEx.entryExists ["b", "a"] "marker.txt" = true :=
  ⟨((find_project_root_upward fsUpEx "marker.txt").1 ["b", "a"]
      (by decide)).1,
   ((find_project_root_upward fsUpEx "marker.txt").1 ["b", "a"]
      (by decide)).2.1⟩

/-- C8: when the upward phase fails and the downward phase fails too
(`fd` unavailable, or exiting non-zero, or producing empty output),
`find_project_root` returns `none`; being a total Lean function it raises
nothing. -/
theorem find_project_root_both_phases_fail (env : FsEnv) (filename : String)
    (hup : searchUp env.entryExists filename env.cwd = none)
    (hdown : env.fdAvailable = false ∨
             (env.fdRun (fd_args filename)).1 ≠ some 0 ∨
             (env.fdRun (fd_args filename)).2.1 = "") :
    find_project_root env filename = none := by
  rcases hdown with h | h | h <;> simp [find_project_root, hup, h]

/-- Witness for C8 on the `fsNoneEx` filesystem (no marker anywhere, no
`fd` on the path). -/
theorem find_project_root_both_phases_fail_witness :
    find_project_root fsNoneEx "marker.txt" = none :=
  find_project_root_both_phases_fail fsNoneEx "marker.txt" rfl (Or.inl rfl)

/-- C9: round-trip through a pass-through child — `run_command` hands the
child exactly `input_data` (the source writes it to stdin and closes the
pipe), and for a three-line input the returned stdout is that same
three-line string stripped, with empty stderr and exit code 0; `split` is
any faithful partition of the echoed text into collector lines. -/
theorem run_command_echo_roundtrip (command : Command) (l1 l2 l3 : String)
    (split : String → List String)
    (hsplit : String.join (split (l1 ++ "\n" ++ l2 ++ "\n" ++ l3))
                = l1 ++ "\n" ++ l2 ++ "\n" ++ l3) :
    run_command command (some (l1 ++ "\n" ++ l2 ++ "\n" ++ l3)) none
        (.ok (passThroughChild split))
      = .ok (some 0, pyStrip (l1 ++ "\n" ++ l2 ++ "\n" ++ l3), "") := by
  simp [run_command, passThroughChild, timeoutTruthy, hsplit]
  rfl

/-- Witness for C9 with the one-line collector partition on the input
"one\ntwo\nthree". -/
theorem run_command_echo_roundtrip_witness :
    String.join (echoSplitId ("one" ++ "\n" ++ "two" ++ "\n" ++ "three"))
      = "one" ++ "\n" ++ "two" ++ "\n" ++ "three" ∧
    run_command (.shell "cat") (some ("one" ++ "\n" ++ "two" ++ "\n" ++ "three"))
        none (.ok (passThroughChild echoSplitId))
      = .ok (some 0, pyStrip ("one" ++ "\n" ++ "two" ++ "\n" ++ "three"), "") :=
  ⟨by decide,
   run_command_echo_roundtrip (.shell "cat") "one" "two" "three" echoSplitId
     (by decide)⟩
